import Mathlib

/-!
Shallow embedding of `src/dashboard.py` (OgaDoctor Analytics Dashboard).

The dashboard keeps three session-state collections:
  - `patients` : a mutable list of patient-case dicts (the live queue),
  - `consultation_history` : a table of per-day consultation counts,
  - `inventory` : a table of medication stock rows.

Patient dicts are created by the three "Add ... Patient" test buttons from
the literal `SAMPLE_PATIENTS` records, stamped with `time = datetime.now()`
and `status = 'New'`; the URGENT button uses `patients.insert(0, patient)`
and the MODERATE/MILD buttons use `patients.append(patient)`.  The
"Stock Available" / "Out of Stock" buttons mutate the i-th record in place
(`patient['status'] = ...; patient['response_time'] = datetime.now()`), and
"Mark Complete" calls `patients.pop(i)`.  Timestamps are modelled as `Nat`
ticks; a missing dict key is modelled as `none`.
-/

namespace Ogadoctor

/-- One patient dict in `st.session_state.patients`.  The `priority` key can
be absent (the rendering code uses `patient.get('priority', 'MODERATE')`),
and `response_time` is absent until a response button is pressed. -/
structure Patient where
  name : String
  age : Nat
  phone : String
  symptoms : String
  severity : String
  duration : String
  possible : String
  drugs : String
  priority : Option String
  time : Nat
  status : String
  response_time : Option Nat
deriving DecidableEq, Repr

/-- One record of the literal `SAMPLE_PATIENTS` list (lines 148-182): the
nine creation-time fields, before `time` and `status` are stamped on. -/
structure Sample where
  name : String
  age : Nat
  phone : String
  symptoms : String
  severity : String
  duration : String
  possible : String
  drugs : String
  priority : String
deriving DecidableEq, Repr

/-- SAMPLE_PATIENTS[0]: the URGENT sample record. -/
def sampleUrgent : Sample :=
  { name := "Aisha Musa", age := 28, phone := "+234 803 XXX XXXX",
    symptoms := "Fever for 3 days, chills, body pain", severity := "Strong",
    duration := "3 days", possible := "Malaria-like symptoms",
    drugs := "Coartem / Lone Star / Paracetamol", priority := "URGENT" }

/-- SAMPLE_PATIENTS[1]: the MODERATE sample record. -/
def sampleModerate : Sample :=
  { name := "Chukwudi Obi", age := 45, phone := "+234 806 XXX XXXX",
    symptoms := "Persistent cough and chest congestion", severity := "Moderate",
    duration := "5 days", possible := "Respiratory infection",
    drugs := "Amoxicillin / Cough syrup", priority := "MODERATE" }

/-- SAMPLE_PATIENTS[2]: the LOW-priority (mild) sample record. -/
def sampleMild : Sample :=
  { name := "Ngozi Eze", age := 34, phone := "+234 809 XXX XXXX",
    symptoms := "Mild headache and tiredness", severity := "Mild",
    duration := "1 day", possible := "Stress/fatigue",
    drugs := "Paracetamol / Multivitamin", priority := "LOW" }

/-- The literal `SAMPLE_PATIENTS` list. -/
def SAMPLE_PATIENTS : List Sample := [sampleUrgent, sampleModerate, sampleMild]

/-- Embeds `patient = SAMPLE_PATIENTS[k].copy(); patient['time'] =
datetime.now(); patient['status'] = 'New'`: the dict a test button builds
before inserting it into the queue. -/
def stampSample (s : Sample) (now : Nat) : Patient :=
  { name := s.name, age := s.age, phone := s.phone, symptoms := s.symptoms,
    severity := s.severity, duration := s.duration, possible := s.possible,
    drugs := s.drugs, priority := some s.priority, time := now,
    status := "New", response_time := none }

/-- Embeds the "Add URGENT Patient" button (lines 235-241):
`st.session_state.patients.insert(0, patient)`. -/
def addUrgentButton (q : List Patient) (now : Nat) : List Patient :=
  stampSample sampleUrgent now :: q

/-- Embeds the "Add MODERATE Patient" button (lines 244-249):
`st.session_state.patients.append(patient)`. -/
def addModerateButton (q : List Patient) (now : Nat) : List Patient :=
  q ++ [stampSample sampleModerate now]

/-- Embeds the "Add MILD Patient" button (lines 252-257):
`st.session_state.patients.append(patient)`. -/
def addMildButton (q : List Patient) (now : Nat) : List Patient :=
  q ++ [stampSample sampleMild now]

/-- Modelled from the spec: the Queue Container contract
`enqueue(case, priority)` "inserts at index 0 if `priority == URGENT`, else
appends at the end"; used only to compare the three source buttons against
the spec wording. -/
def enqueueSpec (q : List Patient) (c : Patient) : List Patient :=
  if c.priority = some ("URGENT") then c :: q else q ++ [c]

/-- Embeds the in-place mutation shared by the "Stock Available" and
"Out of Stock" buttons (lines 309-321): for the i-th record of the queue,
`patient['status'] = newStatus; patient['response_time'] = datetime.now()`;
the buttons only exist for indices of rendered (hence present) records, and
an out-of-range index leaves the list unchanged. -/
def respond (q : List Patient) (i : Nat) (newStatus : String) (now : Nat) :
    List Patient :=
  match q, i with
  | [], _ => []
  | p :: t, 0 => { p with status := newStatus, response_time := some now } :: t
  | p :: t, Nat.succ j => p :: respond t j newStatus now

/-- Embeds the "Stock Available" button: `patient['status'] = 'Confirmed'`. -/
def stockAvailable (q : List Patient) (i : Nat) (now : Nat) : List Patient :=
  respond q i ("Confirmed") now

/-- Embeds the "Out of Stock" button: `patient['status'] = 'Referred'`. -/
def outOfStock (q : List Patient) (i : Nat) (now : Nat) : List Patient :=
  respond q i ("Referred") now

/-- The error Python raises from `list.pop(i)` on an out-of-range index
(`IndexError: pop index out of range`); the spec calls it IndexOutOfRange. -/
inductive PopError where
  | indexOutOfRange
deriving DecidableEq, Repr

/-- Embeds `st.session_state.patients.pop(i)` from the "Mark Complete"
button (line 338): returns the removed record and the remaining list, or
fails when the index is out of range.  Indices come from
`enumerate(st.session_state.patients)`, hence are naturals. -/
def pyPop (q : List Patient) (i : Nat) : Except PopError (Patient × List Patient) :=
  if h : i < q.length then Except.ok (q[i], q.eraseIdx i)
  else Except.error PopError.indexOutOfRange

/-- One row of the `st.session_state.inventory` table (lines 100-107). -/
structure InventoryRow where
  medication : String
  current_stock : Nat
  reorder_point : Nat
  monthly_demand : Nat
  unit_price : Nat
deriving DecidableEq, Repr

/-- Embeds the derived `status` column (lines 110-113):
`'Low Stock' if row['current_stock'] <= row['reorder_point'] else 'OK'`. -/
def statusOf (r : InventoryRow) : String :=
  if r.current_stock ≤ r.reorder_point then "Low Stock" else "OK"

/-- The seeded inventory table (lines 100-107), one row per medication. -/
def seededInventory : List InventoryRow :=
  [ { medication := "Paracetamol", current_stock := 45, reorder_point := 20,
      monthly_demand := 120, unit_price := 50 },
    { medication := "Amoxicillin", current_stock := 12, reorder_point := 15,
      monthly_demand := 35, unit_price := 300 },
    { medication := "Chloroquine", current_stock := 8, reorder_point := 10,
      monthly_demand := 25, unit_price := 200 },
    { medication := "Vitamin C", current_stock := 65, reorder_point := 25,
      monthly_demand := 40, unit_price := 150 },
    { medication := "Ibuprofen", current_stock := 28, reorder_point := 20,
      monthly_demand := 85, unit_price := 80 },
    { medication := "Cough Syrup", current_stock := 15, reorder_point := 12,
      monthly_demand := 30, unit_price := 250 },
    { medication := "Antacid", current_stock := 42, reorder_point := 15,
      monthly_demand := 50, unit_price := 100 },
    { medication := "ORS", current_stock := 55, reorder_point := 30,
      monthly_demand := 95, unit_price := 50 },
    { medication := "Aspirin", current_stock := 18, reorder_point := 10,
      monthly_demand := 22, unit_price := 120 },
    { medication := "Multivitamin", current_stock := 38, reorder_point := 20,
      monthly_demand := 45, unit_price := 200 } ]

/-- Embeds the "Generate Reorder" computation (line 641):
`reorder_qty = row['monthly_demand'] - row['current_stock']` -- a plain
Python integer subtraction, with no clamping. -/
def genReorderQty (r : InventoryRow) : Int :=
  (r.monthly_demand : Int) - (r.current_stock : Int)

/-- Characters of a string lowercased; models the case-folding that
`case=False` applies before matching. -/
def lowerChars (s : String) : List Char :=
  s.data.map Char.toLower

/-- Modelled from the spec: the "case-insensitive substring match on
`medication`" wording of the spec's filter contract.  Kept to compare the
spec's description with the regex matching the code actually performs
through `str.contains`. -/
def specSubstrCI (hay needle : String) : Bool :=
  decide (lowerChars needle <:+: lowerChars hay)

/-- One token of a compiled search pattern.  The call
`str.contains(search, case=False)` at line 603 leaves the pandas default
`regex=True`, so the search string is handed to the Python `re` engine.
The embedding covers the regex fragment with no metacharacters other than
the dot: a token is a literal character or the any-character wildcard. -/
inductive SearchTok where
  | lit (c : Char)
  | any
deriving DecidableEq, Repr

/-- The `re` metacharacters other than the dot -- the parenthesis pair,
the square and curly bracket pairs, the vertical bar, the backslash, the
caret, the dollar sign, the star, the plus and the question mark --
written by code point; a search string containing one of them is outside
the embedded regex fragment. -/
def regexMetaChars : List Char :=
  [40, 41, 91, 93, 123, 125, 124, 92, 94, 36, 42, 43, 63].map Char.ofNat

/-- The dot character (code point 46). -/
def dotChar : Char := Char.ofNat 46

/-- The newline character, the one character the regex dot never matches. -/
def newlineChar : Char := Char.ofNat 10

/-- Compiles one search character: the dot becomes the wildcard, any other
metacharacter is outside the embedded fragment, everything else is a
literal. -/
def parseSearchTok (c : Char) : Option SearchTok :=
  if c = dotChar then some SearchTok.any
  else if c ∈ regexMetaChars then none
  else some (SearchTok.lit c)

/-- Compiles a search string into tokens; `none` when the string uses
regex syntax outside the embedded fragment. -/
def parseSearch (s : String) : Option (List SearchTok) :=
  s.data.mapM parseSearchTok

/-- One token against one character, case-insensitively (`case=False`
passes `re.IGNORECASE`): a literal matches up to lowercasing, the dot
matches every character except newline. -/
def tokMatch (t : SearchTok) (c : Char) : Bool :=
  match t with
  | SearchTok.lit l => l.toLower = c.toLower
  | SearchTok.any => c ≠ newlineChar

/-- Whether the token list matches a prefix of the character list. -/
def matchAt (toks : List SearchTok) (s : List Char) : Bool :=
  match toks, s with
  | [], _ => true
  | _ :: _, [] => false
  | t :: ts, c :: cs => tokMatch t c && matchAt ts cs

/-- Python `re.search` on the embedded fragment: whether the pattern
matches starting at some position of the string, the position at the very
end included. -/
def reSearch (toks : List SearchTok) (s : List Char) : Bool :=
  match s with
  | [] => matchAt toks []
  | c :: cs => matchAt toks (c :: cs) || reSearch toks cs

/-- Embeds the search stage of the inventory tab (lines 600-603): copy the
table; if the search box is non-empty keep the rows where
`df_display['medication'].str.contains(search, case=False)` holds, that
is, rows whose medication the search string, read as a case-insensitive
regular expression, matches somewhere; `none` when the search string falls
outside the embedded regex fragment. -/
def searchFiltered (inv : List InventoryRow) (search : String) :
    Option (List InventoryRow) :=
  if search = "" then some inv
  else (parseSearch search).map
    (fun toks => inv.filter (fun r => reSearch toks r.medication.data))

/-- Embeds the status-selectbox stage (lines 606-609) applied after the
search stage: rows whose `status` column equals the chosen option
("All" keeps everything).  The stored `status` column always equals
`statusOf` of the row, so the comparisons are written with `statusOf`. -/
def inventoryFilter (inv : List InventoryRow) (search : String)
    (filter_option : String) : Option (List InventoryRow) :=
  (searchFiltered inv search).map (fun d1 =>
    if filter_option = "Low Stock" then
      d1.filter (fun r => statusOf r = "Low Stock")
    else if filter_option = "OK" then
      d1.filter (fun r => statusOf r = "OK")
    else d1)

/-- Predicate equivalent of the two filter stages combined: regex search
match and status match (used to state that `inventoryFilter` selects
exactly the rows satisfying both). -/
def rowMatches (toks : List SearchTok) (filter_option : String)
    (r : InventoryRow) : Bool :=
  reSearch toks r.medication.data &&
    (if filter_option = "Low Stock" then decide (statusOf r = "Low Stock")
     else if filter_option = "OK" then decide (statusOf r = "OK")
     else true)

/-- The compiled tokens of the search string "para". -/
def paraToks : List SearchTok :=
  [SearchTok.lit 'p', SearchTok.lit 'a', SearchTok.lit 'r', SearchTok.lit 'a']

/-- Association-list lookup with a default; models Python
`{...}.get(key, default)`. -/
def lookupD (l : List (String × String)) (k : String) (d : String) : String :=
  ((l.find? (fun e => e.1 = k)).map Prod.snd).getD d

/-- Embeds the priority-icon lookup (lines 273-277):
`{'URGENT': '🔴', 'MODERATE': '🟡', 'LOW': '🟢'}.get(patient.get('priority',
'MODERATE'), '🟡')`. -/
def priorityIcon (pr : Option String) : String :=
  lookupD [("URGENT", "🔴"), ("MODERATE", "🟡"), ("LOW", "🟢")]
    (pr.getD ("MODERATE")) ("🟡")

/-- Embeds the priority-background lookup (lines 279-283): same keys but
the default is the empty string. -/
def priorityBg (pr : Option String) : String :=
  lookupD
    [("URGENT", "background-color: #ffebee;"),
     ("MODERATE", "background-color: #fff9e6;"),
     ("LOW", "background-color: #e8f5e9;")]
    (pr.getD ("MODERATE")) ("")

/-- Embeds the priority label shown in the patient header (line 289):
`patient.get('priority', 'MODERATE')`. -/
def priorityLabel (pr : Option String) : String :=
  pr.getD ("MODERATE")

/-- One row of `st.session_state.consultation_history` (lines 87-94). -/
structure ConsultRow where
  date : Nat
  consultations : Nat
  urgent : Nat
  moderate : Nat
  mild : Nat
  response_time_mins : Nat
deriving DecidableEq, Repr

/-- The three session-state collections together. -/
structure DashState where
  patients : List Patient
  consultation_history : List ConsultRow
  inventory : List InventoryRow
deriving DecidableEq, Repr

/-- Embeds the "Export Consultations (CSV)" button (lines 761-763): shows a
message, touches no state. -/
def exportConsultationsBtn (s : DashState) : String × DashState :=
  ("✅ Consultations exported to downloads", s)

/-- Embeds the "Export Inventory (CSV)" button (lines 765-766). -/
def exportInventoryBtn (s : DashState) : String × DashState :=
  ("✅ Inventory exported to downloads", s)

/-- Embeds the "Generate Monthly Report (PDF)" button (lines 768-769). -/
def generateReportBtn (s : DashState) : String × DashState :=
  ("✅ Report generated", s)

/-- Embeds the "Reset All Data" button (lines 781-783): even with the
confirmation checkbox ticked it only shows "disabled in demo mode". -/
def resetAllDataBtn (s : DashState) : String × DashState :=
  ("This feature is disabled in demo mode", s)

/-- Embeds the "Clear Test Patients" button (lines 774-776):
`st.session_state.patients = []`. -/
def clearTestPatientsBtn (s : DashState) : String × DashState :=
  ("✅ Test patients cleared", { s with patients := [] })

/-! Theorems -/

/-- C1: every enqueue the program performs (the three Add-Patient buttons)
inserts the stamped case at index 0 when its priority is URGENT and appends
it at the end otherwise, exactly as `enqueueSpec` describes, always
succeeding (length grows by one); in particular enqueueing the LOW-priority
case A and then the URGENT case B yields the order [B, A]. -/
theorem enqueue_matches_spec (q : List Patient) (now now2 : Nat) :
    addUrgentButton q now = enqueueSpec q (stampSample sampleUrgent now) ∧
    addModerateButton q now = enqueueSpec q (stampSample sampleModerate now) ∧
    addMildButton q now = enqueueSpec q (stampSample sampleMild now) ∧
    (addUrgentButton q now).length = q.length + 1 ∧
    (addModerateButton q now).length = q.length + 1 ∧
    (addMildButton q now).length = q.length + 1 ∧
    (addUrgentButton (addMildButton [] now) now2).map Patient.name
      = [sampleUrgent.name, sampleMild.name] := by
  refine ⟨?_, ?_, ?_, ?_, ?_, ?_, ?_⟩ <;>
    simp [addUrgentButton, addModerateButton, addMildButton, enqueueSpec,
      stampSample, sampleUrgent, sampleModerate, sampleMild]

/-- C6: the derived inventory status is `"Low Stock"` exactly when
`current_stock ≤ reorder_point` and `"OK"` otherwise; the boundary
`current_stock = reorder_point` yields `"Low Stock"`. -/
theorem statusOf_spec (r : InventoryRow) :
    (statusOf r = "Low Stock" ↔ r.current_stock ≤ r.reorder_point) ∧
    (statusOf r = "OK" ↔ r.reorder_point < r.current_stock) ∧
    statusOf { r with current_stock := r.reorder_point } = "Low Stock" := by
  unfold statusOf
  refine ⟨?_, ?_, ?_⟩
  · split <;> simp_all
  · split <;> simp_all
  · simp

/-- A concrete row sitting exactly on the reorder boundary. -/
def boundaryRow : InventoryRow :=
  { medication := "Amoxicillin", current_stock := 15, reorder_point := 15,
    monthly_demand := 35, unit_price := 300 }

/-- An overstocked row: current stock above monthly demand. -/
def overstockedRow : InventoryRow :=
  { medication := "Sample", current_stock := 50, reorder_point := 60,
    monthly_demand := 30, unit_price := 100 }

/-- The seeded Amoxicillin row (second row of `seededInventory`). -/
def amoxicillinRow : InventoryRow :=
  { medication := "Amoxicillin", current_stock := 12, reorder_point := 15,
    monthly_demand := 35, unit_price := 300 }

/-- C6 witness: `statusOf` at a concrete boundary row. -/
theorem statusOf_spec_witness : statusOf boundaryRow = "Low Stock" :=
  (statusOf_spec boundaryRow).1.mpr (by decide)

/-- C7 counterexample: the reorder quantity is computed without clamping,
so on a row with `current_stock = 50 > monthly_demand = 30` the code yields
`-20`, not `max 0 (30 - 50) = 0` as the claim states. -/
theorem genReorderQty_negative_cex :
    overstockedRow.current_stock = 50 ∧ overstockedRow.monthly_demand = 30 ∧
    genReorderQty overstockedRow = -20 ∧
    max 0 ((30 : Int) - 50) = 0 ∧ (-20 : Int) ≠ 0 := by
  refine ⟨by decide, by decide, by decide, by decide, by decide⟩

/-- C7 amended: the reorder quantity is the unclamped difference
`monthly_demand - current_stock`, negative exactly when stock exceeds
monthly demand; for every seeded inventory row that is low-stock (the only
rows for which the Generate Reorder button is shown) the quantity is
positive. -/
theorem genReorderQty_spec :
    (∀ r : InventoryRow,
        genReorderQty r = (r.monthly_demand : Int) - (r.current_stock : Int) ∧
        (genReorderQty r < 0 ↔ r.monthly_demand < r.current_stock)) ∧
    (∀ r ∈ seededInventory, statusOf r = "Low Stock" → 0 < genReorderQty r) := by
  constructor
  · intro r
    constructor
    · rfl
    · unfold genReorderQty
      omega
  · decide

/-- C7 witness: the amended facts at the seeded Amoxicillin row. -/
theorem genReorderQty_spec_witness : 0 < genReorderQty amoxicillinRow :=
  genReorderQty_spec.2 amoxicillinRow (by decide) (by decide)

/-- Responding never changes the number of records. -/
lemma respond_length (q : List Patient) (i : Nat) (st : String) (now : Nat) :
    (respond q i st now).length = q.length := by
  induction q generalizing i with
  | nil => rfl
  | cons p t ih =>
    cases i with
    | zero => simp [respond]
    | succ j => simp [respond, ih]

/-- Responding never changes the sequence of patient names. -/
lemma respond_map_name (q : List Patient) (i : Nat) (st : String) (now : Nat) :
    (respond q i st now).map Patient.name = q.map Patient.name := by
  induction q generalizing i with
  | nil => rfl
  | cons p t ih =>
    cases i with
    | zero => simp [respond]
    | succ j => simp [respond, ih]

/-- Responding at a valid index overwrites exactly the status and
response-time fields of that record. -/
lemma respond_getElem_at (q : List Patient) (i : Nat) (st : String)
    (now : Nat) (h : i < q.length) :
    ∃ p, q[i]? = some p ∧
      (respond q i st now)[i]?
        = some { p with status := st, response_time := some now } := by
  induction q generalizing i with
  | nil => simp at h
  | cons p t ih =>
    cases i with
    | zero => exact ⟨p, by simp, by simp [respond]⟩
    | succ j =>
      simp only [List.length_cons, Nat.succ_lt_succ_iff] at h
      obtain ⟨x, hx, hx2⟩ := ih j h
      exact ⟨x, by simpa [respond] using hx, by simpa [respond] using hx2⟩

/-- Responding leaves every other index untouched. -/
lemma respond_getElem_ne (q : List Patient) (i : Nat) (st : String)
    (now : Nat) (j : Nat) (hj : j ≠ i) :
    (respond q i st now)[j]? = q[j]? := by
  induction q generalizing i j with
  | nil => rfl
  | cons p t ih =>
    cases i with
    | zero =>
      cases j with
      | zero => exact absurd rfl hj
      | succ k => simp [respond]
    | succ m =>
      cases j with
      | zero => simp [respond]
      | succ k =>
        have : k ≠ m := fun h => hj (by simp [h])
        simpa [respond] using ih m k this

/-- A concrete record that has already been responded to. -/
def respondedPatient : Patient :=
  { stampSample sampleUrgent 0 with status := "Confirmed", response_time := some 3 }

/-- C2 counterexample: on a record that has already responded
(status "Confirmed", respondedAt 3), pressing a response button again
re-stamps `response_time` with the current time 7, so `respondedAt` does not
stay unchanged as the claim states. -/
theorem setStatus_restamps_cex :
    respondedPatient.status ≠ "New" ∧
    respondedPatient.response_time = some 3 ∧
    (respond [respondedPatient] 0 ("Referred") 7).map Patient.response_time
      = [some 7] ∧
    some (7 : Nat) ≠ some (3 : Nat) := by
  refine ⟨by decide, by decide, by decide, by decide⟩

/-- C2 amended: for every valid index and every new status, the response
buttons set the record's status and unconditionally stamp
`respondedAt = now()` -- also when the record had already responded -- and
touch no other record. -/
theorem setStatus_spec (q : List Patient) (i : Nat) (st : String)
    (now : Nat) (h : i < q.length) :
    (respond q i st now).length = q.length ∧
    (∃ p, q[i]? = some p ∧
      (respond q i st now)[i]?
        = some { p with status := st, response_time := some now }) ∧
    (∀ j, j ≠ i → (respond q i st now)[j]? = q[j]?) :=
  ⟨respond_length q i st now, respond_getElem_at q i st now h,
    fun j hj => respond_getElem_ne q i st now j hj⟩

/-- C2 witness: `setStatus_spec` applied to a concrete one-element queue. -/
theorem setStatus_spec_witness :
    (respond [respondedPatient] 0 ("Confirmed") 7).length = 1 :=
  (setStatus_spec [respondedPatient] 0 ("Confirmed") 7 (by decide)).1

/-- C4: popping an out-of-range index (in particular any index of the empty
queue) fails with the index-out-of-range error; popping a valid index
returns the record at that index and the queue with exactly that entry
deleted, the relative order of the rest preserved (take-prefix then
drop-suffix) and the length decreased by one. -/
theorem remove_spec (q : List Patient) (i : Nat) :
    (q.length ≤ i → pyPop q i = Except.error PopError.indexOutOfRange) ∧
    pyPop ([] : List Patient) i = Except.error PopError.indexOutOfRange ∧
    (i < q.length → ∃ p rest, pyPop q i = Except.ok (p, rest) ∧
      q[i]? = some p ∧ rest = q.take i ++ q.drop (i + 1) ∧
      rest.length + 1 = q.length) := by
  refine ⟨fun h => ?_, ?_, fun h => ?_⟩
  · unfold pyPop
    rw [dif_neg (by omega)]
  · unfold pyPop
    rw [dif_neg (by simp)]
  · refine ⟨q[i], q.eraseIdx i, ?_, ?_, ?_, ?_⟩
    · unfold pyPop
      rw [dif_pos h]
    · exact List.getElem?_eq_getElem h
    · exact List.eraseIdx_eq_take_drop_succ q i
    · exact List.length_eraseIdx_add_one h

/-- C4 witness: removing from the empty queue fails. -/
theorem remove_spec_witness :
    pyPop ([] : List Patient) 5 = Except.error PopError.indexOutOfRange :=
  (remove_spec [] 5).1 (by decide)

/-- C5: confirming or referring a case never removes it from the queue --
the queue keeps its length and its exact sequence of case names under both
response buttons; only the Mark Complete pop deletes an entry. -/
theorem confirm_refer_frame (q : List Patient) (i now : Nat) :
    (stockAvailable q i now).length = q.length ∧
    (stockAvailable q i now).map Patient.name = q.map Patient.name ∧
    (outOfStock q i now).length = q.length ∧
    (outOfStock q i now).map Patient.name = q.map Patient.name :=
  ⟨respond_length q i _ now, respond_map_name q i _ now,
    respond_length q i _ now, respond_map_name q i _ now⟩

/-- The queue invariant stated in the spec: `respondedAt` is set if and
only if the status is not NEW. -/
def QueueInv (q : List Patient) : Prop :=
  ∀ p ∈ q, (p.response_time ≠ none ↔ p.status ≠ "New")

/-- Queue states reachable from the initially empty queue by the UI
operations: the three Add-Patient buttons (case creation), Stock Available
(confirm), Out of Stock (refer), Mark Complete (remove), and Clear Test
Patients. -/
inductive Reachable : List Patient → Prop where
  | empty : Reachable []
  | addUrgent (q : List Patient) (now : Nat) :
      Reachable q → Reachable (addUrgentButton q now)
  | addModerate (q : List Patient) (now : Nat) :
      Reachable q → Reachable (addModerateButton q now)
  | addMild (q : List Patient) (now : Nat) :
      Reachable q → Reachable (addMildButton q now)
  | confirm (q : List Patient) (i now : Nat) :
      Reachable q → Reachable (stockAvailable q i now)
  | refer (q : List Patient) (i now : Nat) :
      Reachable q → Reachable (outOfStock q i now)
  | complete (q : List Patient) (i : Nat) (p : Patient) (q2 : List Patient) :
      Reachable q → pyPop q i = Except.ok (p, q2) → Reachable q2
  | clear (q : List Patient) : Reachable q → Reachable []

/-- Every member of a responded queue is an untouched original member or
carries the new status together with the fresh response stamp. -/
lemma respond_mem {q : List Patient} {i : Nat} {st : String} {now : Nat}
    {p : Patient} (hp : p ∈ respond q i st now) :
    p ∈ q ∨ (p.status = st ∧ p.response_time = some now) := by
  induction q generalizing i with
  | nil => simp [respond] at hp
  | cons a t ih =>
    cases i with
    | zero =>
      rcases List.mem_cons.mp hp with h | h
      · right
        rw [h]
        exact ⟨rfl, rfl⟩
      · exact Or.inl (List.mem_cons_of_mem a h)
    | succ j =>
      rcases List.mem_cons.mp hp with h | h
      · exact Or.inl (h ▸ List.mem_cons_self a t)
      · rcases ih h with h2 | h2
        · exact Or.inl (List.mem_cons_of_mem a h2)
        · exact Or.inr h2

/-- A freshly stamped sample satisfies the queue invariant clause. -/
lemma stamp_inv (s : Sample) (now : Nat) :
    ((stampSample s now).response_time ≠ none ↔
      (stampSample s now).status ≠ "New") := by
  simp [stampSample]

/-- C3: in every queue state reachable by the UI operations, a record has
its response time set exactly when its status is no longer "New". -/
theorem reachable_queueInv (q : List Patient) (h : Reachable q) :
    QueueInv q := by
  induction h with
  | empty => intro p hp; simp at hp
  | addUrgent q now _ ih =>
    intro p hp
    rcases List.mem_cons.mp hp with h | h
    · exact h ▸ stamp_inv sampleUrgent now
    · exact ih p h
  | addModerate q now _ ih =>
    intro p hp
    rcases List.mem_append.mp hp with h | h
    · exact ih p h
    · rcases List.mem_singleton.mp h with h2
      exact h2 ▸ stamp_inv sampleModerate now
  | addMild q now _ ih =>
    intro p hp
    rcases List.mem_append.mp hp with h | h
    · exact ih p h
    · rcases List.mem_singleton.mp h with h2
      exact h2 ▸ stamp_inv sampleMild now
  | confirm q i now _ ih =>
    intro p hp
    rcases respond_mem hp with h | h
    · exact ih p h
    · constructor
      · intro _
        rw [h.1]
        decide
      · intro _
        rw [h.2]
        simp
  | refer q i now _ ih =>
    intro p hp
    rcases respond_mem hp with h | h
    · exact ih p h
    · constructor
      · intro _
        rw [h.1]
        decide
      · intro _
        rw [h.2]
        simp
  | complete q i p q2 _ hpop ih =>
    intro x hx
    have hq2 : q2 = q.eraseIdx i := by
      unfold pyPop at hpop
      split at hpop
      · simp only [Except.ok.injEq, Prod.mk.injEq] at hpop
        exact hpop.2.symm
      · exact absurd hpop (by simp)
    exact ih x ((List.eraseIdx_sublist q i).subset (hq2 ▸ hx))
  | clear q _ _ => intro p hp; simp at hp

/-- C3 witness: the invariant at a concrete reachable state. -/
theorem reachable_queueInv_witness : QueueInv (addUrgentButton [] 0) :=
  reachable_queueInv (addUrgentButton [] 0)
    (Reachable.addUrgent [] 0 Reachable.empty)

/-- Two successive filters select by the conjunction of the predicates. -/
lemma filterTwice {α : Type} (p q : α → Bool) (l : List α) :
    (l.filter p).filter q = l.filter (fun a => p a && q a) := by
  induction l with
  | nil => rfl
  | cons a t ih => by_cases hp : p a <;> by_cases hq : q a <;> simp [hp, hq, ih]

/-- The empty pattern matches at the start of every string. -/
lemma reSearch_nil (s : List Char) : reSearch [] s = true := by
  cases s <;> simp [reSearch, matchAt]

/-- An all-literal pattern matches a prefix exactly when its lowercased
characters are a prefix of the lowercased string. -/
lemma matchAt_lits (cs s : List Char) :
    matchAt (cs.map SearchTok.lit) s = true ↔
      cs.map Char.toLower <+: s.map Char.toLower := by
  induction cs generalizing s with
  | nil =>
    simp only [List.map_nil, matchAt]
    exact iff_of_true trivial ⟨s.map Char.toLower, rfl⟩
  | cons c ct ih =>
    cases s with
    | nil => simp [matchAt]
    | cons a t => simp [matchAt, tokMatch, ih, List.cons_prefix_cons]

/-- An all-literal pattern is found somewhere in a string exactly when its
lowercased characters occur inside the lowercased string. -/
lemma reSearch_lits (cs s : List Char) :
    reSearch (cs.map SearchTok.lit) s = true ↔
      cs.map Char.toLower <:+: s.map Char.toLower := by
  induction s with
  | nil => cases cs <;> simp [reSearch, matchAt]
  | cons a t ih =>
    have h1 := matchAt_lits cs (a :: t)
    have hr : reSearch (cs.map SearchTok.lit) (a :: t)
        = (matchAt (cs.map SearchTok.lit) (a :: t)
            || reSearch (cs.map SearchTok.lit) t) := rfl
    rw [hr, Bool.or_eq_true, ih, h1, List.map_cons, List.infix_cons_iff]

/-- On searches without regex metacharacters the regex match coincides
with the spec's literal case-insensitive substring test. -/
lemma lit_search_eq_substr (cs : List Char) (hay : String) :
    reSearch (cs.map SearchTok.lit) hay.data
      = specSubstrCI hay (String.mk cs) := by
  have h := reSearch_lits cs hay.data
  have hd : (String.mk cs).data = cs := rfl
  unfold specSubstrCI lowerChars
  rw [hd]
  by_cases hb : cs.map Char.toLower <:+: hay.data.map Char.toLower
  · rw [h.mpr hb, decide_eq_true hb]
  · rw [decide_eq_false hb, Bool.eq_false_iff]
    exact fun hh => hb (h.mp hh)

/-- C8 counterexample: the search string is interpreted as a regular
expression, not as a literal substring -- searching the seeded inventory
for "." keeps all ten rows (the regex dot matches any character) although
no medication name contains a literal dot, so the filter does not return
the rows whose medication contains the search string. -/
theorem inventoryFilter_regex_cex :
    inventoryFilter seededInventory (".") ("All") = some seededInventory ∧
    (∀ r ∈ seededInventory, specSubstrCI r.medication (".") = false) ∧
    seededInventory ≠ [] := by
  refine ⟨by decide, by decide, by decide⟩

/-- C8 amended: for every inventory list, status choice, and search string
within the embedded regex fragment (literal characters and the dot
wildcard), the filtering pipeline keeps exactly the rows whose medication
the search matches as a case-insensitive regular expression and whose
status equals the choice, as one filter pass over the original table in
its original order (a sub-sequence); on searches with no regex
metacharacters the regex match agrees with the spec's literal substring
test. -/
theorem inventoryFilter_regex_spec (inv : List InventoryRow)
    (search opt : String) (toks : List SearchTok)
    (hp : parseSearch search = some toks) :
    inventoryFilter inv search opt
      = some (inv.filter (fun r => rowMatches toks opt r)) ∧
    List.Sublist (inv.filter (fun r => rowMatches toks opt r)) inv ∧
    (∀ (cs : List Char) (hay : String),
      reSearch (cs.map SearchTok.lit) hay.data
        = specSubstrCI hay (String.mk cs)) := by
  refine ⟨?_, List.filter_sublist inv, fun cs hay => lit_search_eq_substr cs hay⟩
  have hsf : searchFiltered inv search
      = some (inv.filter (fun r => reSearch toks r.medication.data)) := by
    unfold searchFiltered
    by_cases hs : search = ""
    · subst hs
      rw [if_pos rfl]
      have h0 : parseSearch "" = some [] := rfl
      rw [h0] at hp
      have ht : ([] : List SearchTok) = toks := Option.some.inj hp
      subst ht
      exact congrArg some
        (List.filter_eq_self.mpr (fun a _ => reSearch_nil a.medication.data)).symm
    · rw [if_neg hs, hp]
      rfl
  unfold inventoryFilter
  rw [hsf]
  simp only [Option.map_some']
  refine congrArg some ?_
  by_cases hl : opt = "Low Stock"
  · subst hl
    rw [if_pos rfl, filterTwice]
    simp [rowMatches]
  · by_cases ho : opt = "OK"
    · subst ho
      rw [if_neg (by decide), if_pos rfl, filterTwice]
      simp [rowMatches]
    · rw [if_neg hl, if_neg ho]
      simp [rowMatches, hl, ho]

/-- C8 witness: the amended filter contract at the concrete search "para"
over the seeded inventory. -/
theorem inventoryFilter_regex_spec_witness :
    inventoryFilter seededInventory ("para") ("All")
      = some (seededInventory.filter (fun r => rowMatches paraToks ("All") r)) :=
  (inventoryFilter_regex_spec seededInventory ("para") ("All") paraToks
    (by decide)).1

/-- A concrete dashboard state with one queued patient, used to exhibit the
effect of the Clear Test Patients button. -/
def demoState : DashState :=
  { patients := [stampSample sampleUrgent 0], consultation_history := [],
    inventory := seededInventory }

/-- C9 counterexample: the Clear Test Patients button is not a pure
confirmation message -- on a state with one queued patient it empties the
patient queue, so not every export/report/reset-style action leaves the
state unchanged. -/
theorem clearTestPatients_changes_state_cex :
    (clearTestPatientsBtn demoState).2.patients = [] ∧
    demoState.patients ≠ [] ∧
    (clearTestPatientsBtn demoState).2 ≠ demoState := by
  refine ⟨rfl, by decide, by decide⟩

/-- C9 amended: the export, report, and Reset All Data buttons print a
message and change no state; the Clear Test Patients button, however,
empties the patient queue while leaving the consultation history and the
inventory unchanged. -/
theorem placeholder_buttons_spec (s : DashState) :
    (exportConsultationsBtn s).2 = s ∧
    (exportInventoryBtn s).2 = s ∧
    (generateReportBtn s).2 = s ∧
    (resetAllDataBtn s).2 = s ∧
    (clearTestPatientsBtn s).2.patients = [] ∧
    (clearTestPatientsBtn s).2.consultation_history
      = s.consultation_history ∧
    (clearTestPatientsBtn s).2.inventory = s.inventory :=
  ⟨rfl, rfl, rfl, rfl, rfl, rfl, rfl⟩

/-- C10 counterexample: a record whose priority is present but not one of
URGENT/MODERATE/LOW is not fully rendered as MODERATE: the icon falls back
to the MODERATE one, but the label shows the raw value and the background
lookup falls back to the empty string, not the MODERATE background. -/
theorem unknown_priority_cex :
    priorityIcon (some ("HIGH")) = "🟡" ∧
    priorityBg (some ("HIGH")) = "" ∧
    priorityBg (some ("HIGH")) ≠ "background-color: #fff9e6;" ∧
    priorityLabel (some ("HIGH")) = "HIGH" ∧
    ("HIGH" : String) ≠ "MODERATE" := by
  refine ⟨rfl, rfl, by decide, rfl, by decide⟩

/-- C10 amended: a record with no priority field is rendered fully as
MODERATE (icon, label and background); a record whose priority is present
but unrecognized gets the MODERATE icon as a fallback, yet its label shows
the raw priority value and its background style is the empty string. -/
theorem priority_render_default_spec :
    (priorityIcon none = "🟡" ∧
     priorityBg none = "background-color: #fff9e6;" ∧
     priorityLabel none = "MODERATE") ∧
    (∀ s : String, s ≠ "URGENT" → s ≠ "MODERATE" → s ≠ "LOW" →
      priorityIcon (some s) = "🟡" ∧ priorityBg (some s) = "" ∧
      priorityLabel (some s) = s) := by
  refine ⟨⟨rfl, rfl, rfl⟩, fun s h1 h2 h3 => ?_⟩
  have h1s : ("URGENT" : String) ≠ s := fun h => h1 h.symm
  have h2s : ("MODERATE" : String) ≠ s := fun h => h2 h.symm
  have h3s : ("LOW" : String) ≠ s := fun h => h3 h.symm
  refine ⟨?_, ?_, rfl⟩ <;>
    simp [priorityIcon, priorityBg, lookupD, List.find?, h1s, h2s, h3s]

/-- C10 witness: the amended rendering facts at a concrete unknown
priority value. -/
theorem priority_render_default_spec_witness :
    priorityIcon (some ("EXTREME")) = "🟡" :=
  (priority_render_default_spec.2 ("EXTREME") (by decide) (by decide)
    (by decide)).1

end Ogadoctor
